import Mathlib

/-
Verification development for the geoschem-aws repository.

Each Go function relevant to the claims is shallowly embedded as a Lean
definition.  External effects (EC2 API calls, SSH command results, the
filesystem) are supplied through explicit environment records whose fields
give the outcome of each external interaction, and every embedded function
additionally returns the list of externally visible actions it performed,
in order, so that statements about "what was issued" (termination requests,
pushes, reboot commands, log lines) can be made precisely.
-/

namespace GeoschemAWS

namespace Docker

/-! ## Shell escaping in buildDockerImage (internal/docker/builder.go)

The Go code constructs the remote podman build command with, for every
build-argument entry (key, value):

  fmt.Sprintf(" --build-arg %s='%s'", key, strings.ReplaceAll(value, "'", ...))

where the replacement string is: quote, dquote, quote, dquote, quote.
We embed the escaping on lists of characters and give a small parser for
POSIX shell word splitting and quote removal to state the round trip. -/

/-- The single-quote character (code 39). -/
def quoteC : Char := Char.ofNat 39

/-- The double-quote character (code 34). -/
def dquoteC : Char := Char.ofNat 34

/-- The space character (code 32). -/
def spaceC : Char := Char.ofNat 32

/-- The dollar character (code 36). -/
def dollarC : Char := Char.ofNat 36

/-- The backslash character (code 92). -/
def backslashC : Char := Char.ofNat 92

/-- The backquote character (code 96). -/
def backquoteC : Char := Char.ofNat 96

/-- The equals character (code 61). -/
def eqC : Char := Char.ofNat 61

/-- Embedding of strings.ReplaceAll(value, single-quote, the 5-character
sequence quote dquote quote dquote quote), applied characterwise (the
pattern is a single character, so ReplaceAll acts on each occurrence). -/
def escapeQuote : List Char → List Char
  | [] => []
  | c :: cs =>
    if c = quoteC then
      quoteC :: dquoteC :: quoteC :: dquoteC :: quoteC :: escapeQuote cs
    else
      c :: escapeQuote cs

/-- The value as it appears in the constructed command: the escaped value
wrapped in single quotes, as in the format " --build-arg %s='%s'". -/
def shellQuote (v : List Char) : List Char :=
  quoteC :: (escapeQuote v ++ [quoteC])

/-- The fragment appended to the build command for one build-argument
entry, from buildDockerImage: " --build-arg " ++ key ++ "=" ++ quoted value. -/
def buildArgFragment (key v : List Char) : List Char :=
  " --build-arg ".toList ++ key ++ eqC :: shellQuote v

/-- The full podman build command constructed by buildDockerImage, with the
build arguments taken as an association list (Go map iteration order is
unspecified, so the order of the list is a parameter). -/
def buildDockerImageCmd (buildDir : List Char) (args : List (List Char × List Char))
    (imageName imageTag : List Char) : List Char :=
  "cd ".toList ++ buildDir ++ " && podman build".toList
    ++ (args.foldl (fun acc kv => acc ++ buildArgFragment kv.1 kv.2) [])
    ++ " -t ".toList ++ imageName ++ [Char.ofNat 58] ++ imageTag ++ " .".toList

/-- Parser mode for POSIX shell word recognition: outside quotes, inside
single quotes, inside double quotes. -/
inductive ShMode
  | plain
  | insq
  | indq
  deriving DecidableEq, Repr

/-- Characters that a POSIX shell treats specially outside single quotes
(expansion or escaping): dollar, backslash, backquote.  The parser refuses
inputs containing them unquoted, so it never mis-parses them. -/
def isShellSpecial (c : Char) : Bool :=
  c = dollarC || c = backslashC || c = backquoteC

/-- POSIX shell parse of one word with quote removal.  Returns the word
and the unconsumed remainder (after an unquoted space), or none for an
unterminated quote or an unquoted special character. -/
def shellParseWord : List Char → ShMode → Option (List Char × List Char)
  | [], .plain => some ([], [])
  | [], _ => none
  | c :: cs, .plain =>
    if c = quoteC then shellParseWord cs .insq
    else if c = dquoteC then shellParseWord cs .indq
    else if c = spaceC then some ([], cs)
    else if isShellSpecial c then none
    else (shellParseWord cs .plain).map (fun p => (c :: p.1, p.2))
  | c :: cs, .insq =>
    if c = quoteC then shellParseWord cs .plain
    else (shellParseWord cs .insq).map (fun p => (c :: p.1, p.2))
  | c :: cs, .indq =>
    if c = dquoteC then shellParseWord cs .plain
    else if isShellSpecial c then none
    else (shellParseWord cs .indq).map (fun p => (c :: p.1, p.2))

theorem quoteC_ne_dquoteC : ¬ (quoteC = dquoteC) := by decide

theorem dquoteC_ne_quoteC : ¬ (dquoteC = quoteC) := by decide

theorem isShellSpecial_quoteC : isShellSpecial quoteC = false := by decide

/-- Inside single quotes, parsing the escaped value followed by a closing
quote resumes plain-mode parsing of the remainder, with the original value
recovered verbatim. -/
theorem shellParseWord_escapeQuote (v rest : List Char) :
    shellParseWord (escapeQuote v ++ quoteC :: rest) ShMode.insq
      = (shellParseWord rest ShMode.plain).map (fun p => (v ++ p.1, p.2)) := by
  induction v with
  | nil =>
    simp only [escapeQuote, List.nil_append]
    cases h : shellParseWord rest ShMode.plain with
    | none => simp [shellParseWord, h]
    | some p => simp [shellParseWord, h]
  | cons c cs ih =>
    by_cases hc : c = quoteC
    · subst hc
      have hesc : escapeQuote (quoteC :: cs)
          = quoteC :: dquoteC :: quoteC :: dquoteC :: quoteC :: escapeQuote cs := by
        simp [escapeQuote]
      rw [hesc, List.cons_append, List.cons_append, List.cons_append,
        List.cons_append, List.cons_append]
      rw [shellParseWord, if_pos rfl]
      rw [shellParseWord, if_neg dquoteC_ne_quoteC, if_pos rfl]
      rw [shellParseWord]
      rw [if_neg quoteC_ne_dquoteC]
      rw [if_neg (by simp [isShellSpecial_quoteC])]
      rw [shellParseWord, if_pos rfl]
      rw [shellParseWord, if_pos rfl]
      rw [ih]
      cases h : shellParseWord rest ShMode.plain with
      | none => simp
      | some p => simp
    · have hs : escapeQuote (c :: cs) = c :: escapeQuote cs := by
        simp [escapeQuote, hc]
      rw [hs, List.cons_append, shellParseWord, if_neg hc, ih]
      cases h : shellParseWord rest ShMode.plain with
      | none => simp
      | some p => simp

/-- Parsing the quoted, escaped value as a complete shell word yields back
exactly the original value, with nothing left over: one argument. -/
theorem shellQuote_roundtrip (v : List Char) :
    shellParseWord (shellQuote v) ShMode.plain = some (v, []) := by
  rw [shellQuote, shellParseWord, if_pos rfl]
  have h := shellParseWord_escapeQuote v []
  simpa [shellParseWord] using h

/-- Claim C2: for every build-argument entry (key, value), buildDockerImage
interpolates the value only in shell-escaped form — wrapped in single
quotes with each embedded single quote rewritten as the five-character
sequence quote dquote quote dquote quote — and a POSIX shell parsing that
quoted form recovers exactly the original value string as a single
argument, for every value (including values with spaces and quotes). -/
theorem buildArg_escaped_roundtrip (key v : List Char) :
    buildArgFragment key v = " --build-arg ".toList ++ key ++ eqC :: shellQuote v
      ∧ shellParseWord (shellQuote v) ShMode.plain = some (v, []) :=
  ⟨rfl, shellQuote_roundtrip v⟩

example :
    shellParseWord (shellQuote "geos-chem@14.4.3 %gcc@13.2.0".toList) ShMode.plain
      = some ("geos-chem@14.4.3 %gcc@13.2.0".toList, []) :=
  shellQuote_roundtrip _

end Docker

namespace KeyPair

/-! ## GetOrCreateKeyPair (internal/ssh/keypair.go)

GetOrCreateKeyPair(ctx, keyName, privateKeyPath):
 1. KeyPairExists (DescribeKeyPairs; a NotFound error counts as absence,
    any other error aborts);
 2. if it exists: os.Stat(privateKeyPath); if the stat succeeds return nil
    with no further action, else return the conflict error;
 3. otherwise CreateKeyPair (generate RSA pair + ImportKeyPair) then
    SaveKeyPairToFile; if the save fails, call DeleteKeyPair discarding its
    result entirely and return the save error; on success print a message.

The environment supplies the outcome of each external interaction; the
embedding returns the result together with the ordered list of performed
actions.  The only print on this code path is the final success message. -/

structure Env where
  checkErr : Bool
  awsExists : Bool
  localExists : Bool
  createOk : Bool
  saveOk : Bool
  deleteOk : Bool
  deriving DecidableEq, Repr

/-- Externally visible actions of GetOrCreateKeyPair, in program order.
checkAwsExists and statLocalFile are pure observations; createKeyPair
(generate + ImportKeyPair), saveFile and deleteKeyPair mutate provider or
local state; logCreated is the fmt.Printf success line. -/
inductive Action
  | checkAwsExists
  | statLocalFile
  | createKeyPair
  | saveFile
  | deleteKeyPair
  | logCreated
  deriving DecidableEq, Repr

/-- Whether an action writes a log line (the function contains exactly one
Printf, the success message). -/
def Action.isLogLine : Action → Bool
  | .logCreated => true
  | _ => false

/-- Whether an action mutates provider-side or local state. -/
def Action.isMutation : Action → Bool
  | .createKeyPair => true
  | .saveFile => true
  | .deleteKeyPair => true
  | _ => false

inductive KPResult
  | ok
  | checkFailed
  | conflict
  | createFailed
  | saveFailed
  deriving DecidableEq, Repr

/-- The conflict error text, from the source format string. -/
def conflictText (keyName path : String) : String :=
  "key pair " ++ keyName ++ " exists in AWS but no local private key found at " ++ path

/-- Embedding of KeyPairManager.GetOrCreateKeyPair. -/
def getOrCreateKeyPair (e : Env) : KPResult × List Action :=
  if e.checkErr then (.checkFailed, [Action.checkAwsExists])
  else if e.awsExists then
    if e.localExists then (.ok, [Action.checkAwsExists, Action.statLocalFile])
    else (.conflict, [Action.checkAwsExists, Action.statLocalFile])
  else
    if !e.createOk then (.createFailed, [Action.checkAwsExists, Action.createKeyPair])
    else if !e.saveOk then
      (.saveFailed,
        [Action.checkAwsExists, Action.createKeyPair, Action.saveFile, Action.deleteKeyPair])
    else
      (.ok, [Action.checkAwsExists, Action.createKeyPair, Action.saveFile, Action.logCreated])

/-- Claim C3: when the provider-side registration exists and the local
private-key file exists, GetOrCreateKeyPair succeeds performing only the
two reads (no generation, no mutation); when the registration exists but
the local file is absent, it fails with the conflict error, again with no
mutation of any kind. -/
theorem getOrCreateKeyPair_exists_paths (e : Env)
    (hc : e.checkErr = false) (ha : e.awsExists = true) :
    (e.localExists = true →
      getOrCreateKeyPair e = (.ok, [Action.checkAwsExists, Action.statLocalFile]))
    ∧ (e.localExists = false →
      getOrCreateKeyPair e = (.conflict, [Action.checkAwsExists, Action.statLocalFile]))
    ∧ (getOrCreateKeyPair e).2.filter Action.isMutation = [] := by
  refine ⟨fun hl => ?_, fun hl => ?_, ?_⟩
  · simp [getOrCreateKeyPair, hc, ha, hl]
  · simp [getOrCreateKeyPair, hc, ha, hl]
  · cases hl : e.localExists <;> simp [getOrCreateKeyPair, hc, ha, hl, Action.isMutation]

/-- Witness for C3 at concrete environments. -/
theorem getOrCreateKeyPair_exists_paths_witness :
    getOrCreateKeyPair ⟨false, true, true, true, true, true⟩
        = (.ok, [Action.checkAwsExists, Action.statLocalFile])
      ∧ getOrCreateKeyPair ⟨false, true, false, true, true, true⟩
        = (.conflict, [Action.checkAwsExists, Action.statLocalFile]) :=
  ⟨(getOrCreateKeyPair_exists_paths ⟨false, true, true, true, true, true⟩ rfl rfl).1 rfl,
   (getOrCreateKeyPair_exists_paths ⟨false, true, false, true, true, true⟩ rfl rfl).2.1 rfl⟩

/-- Counterexample to claim C9 as stated: in the run where the provider
registration and the save both take place and the save fails and the
subsequent best-effort DeleteKeyPair also fails, no log line is emitted at
all — the deletion failure is silently discarded, not logged (the result
of the DeleteKeyPair call is not even assigned in the source). -/
theorem deleteFailure_not_logged :
    (getOrCreateKeyPair ⟨false, false, false, true, false, false⟩).2.filter
        Action.isLogLine = []
      ∧ (getOrCreateKeyPair ⟨false, false, false, true, false, false⟩).2.contains
        Action.deleteKeyPair = true := by
  constructor <;> rfl

/-- Claim C9 (amended): if writing the private key fails after the public
key was registered, the manager attempts to delete the provider-side
registration; the deletion is best-effort — its result is discarded
entirely (neither logged nor propagated) — and the caller receives the
local-persistence error unchanged, whatever the deletion outcome. -/
theorem saveFailure_bestEffort_delete (e : Env)
    (hc : e.checkErr = false) (ha : e.awsExists = false)
    (hcr : e.createOk = true) (hs : e.saveOk = false) :
    getOrCreateKeyPair e
      = (.saveFailed,
        [Action.checkAwsExists, Action.createKeyPair, Action.saveFile,
          Action.deleteKeyPair]) := by
  simp [getOrCreateKeyPair, hc, ha, hcr, hs]

/-- Witness for the amended C9: the conclusion holds at two environments
differing only in the deletion outcome. -/
theorem saveFailure_bestEffort_delete_witness :
    getOrCreateKeyPair ⟨false, false, false, true, false, false⟩
        = (.saveFailed,
          [Action.checkAwsExists, Action.createKeyPair, Action.saveFile,
            Action.deleteKeyPair])
      ∧ getOrCreateKeyPair ⟨false, false, false, true, false, true⟩
        = (.saveFailed,
          [Action.checkAwsExists, Action.createKeyPair, Action.saveFile,
            Action.deleteKeyPair]) :=
  ⟨saveFailure_bestEffort_delete ⟨false, false, false, true, false, false⟩ rfl rfl rfl rfl,
   saveFailure_bestEffort_delete ⟨false, false, false, true, false, true⟩ rfl rfl rfl rfl⟩

end KeyPair

namespace SSHClient

/-! ## WaitForConnection (internal/ssh client)

  for i := 0; i < maxRetries; i++ {
      (context check — modelled as never cancelled here)
      err := c.Connect(ctx, host)
      if err == nil { return nil }
      lastErr = err
      (log the failed attempt)
      wait 10 seconds
  }
  return error wrapping lastErr after maxRetries attempts

connect gives the result of the i-th Connect call (zero-based): none means
success, some e the error.  The trace records every attempt and every
fixed 10-second delay; the code delays after every failed attempt,
including the last one. -/

inductive WEv
  | attempt (i : Nat)
  | delay10
  deriving DecidableEq, Repr

inductive WaitOutcome
  | ok
  | failed (attempts : Nat) (lastErr : Option String)
  deriving DecidableEq, Repr

def waitAux (connect : Nat → Option String) (maxRetries i : Nat)
    (lastErr : Option String) : WaitOutcome × List WEv :=
  if _h : i < maxRetries then
    match connect i with
    | none => (.ok, [WEv.attempt i])
    | some e =>
      let r := waitAux connect maxRetries (i + 1) (some e)
      (r.1, WEv.attempt i :: WEv.delay10 :: r.2)
  else
    (.failed maxRetries lastErr, [])
termination_by maxRetries - i

/-- Embedding of Client.WaitForConnection(ctx, host, maxRetries) with the
context never cancelled. -/
def waitForConnection (connect : Nat → Option String) (maxRetries : Nat) :
    WaitOutcome × List WEv :=
  waitAux connect maxRetries 0 none

theorem waitForConnection_def (connect : Nat → Option String) (maxRetries : Nat) :
    waitForConnection connect maxRetries = waitAux connect maxRetries 0 none := rfl

/-- Number of Connect attempts recorded in a trace. -/
def attemptCount (t : List WEv) : Nat :=
  t.countP fun ev => match ev with | .attempt _ => true | _ => false

/-- The trace of n failed attempts starting at index i, each followed by
the fixed delay. -/
def failTrace (i n : Nat) : List WEv :=
  (List.range' i n).flatMap fun j => [WEv.attempt j, WEv.delay10]

theorem failTrace_zero (i : Nat) : failTrace i 0 = [] := rfl

theorem failTrace_succ (i n : Nat) :
    failTrace i (n + 1) = WEv.attempt i :: WEv.delay10 :: failTrace (i + 1) n := by
  simp [failTrace, List.range'_succ]

theorem attemptCount_failTrace (i n : Nat) : attemptCount (failTrace i n) = n := by
  induction n generalizing i with
  | zero => rfl
  | succ n ih => rw [failTrace_succ]; simp [attemptCount] at ih ⊢; exact ih (i + 1)

theorem waitAux_success (connect : Nat → Option String) (maxRetries n : Nat)
    (hn : n < maxRetries) (hsucc : connect n = none) :
    ∀ k i le, i + k = n → (∀ j, i ≤ j → j < n → (connect j).isSome) →
      waitAux connect maxRetries i le = (.ok, failTrace i k ++ [WEv.attempt n]) := by
  intro k
  induction k with
  | zero =>
    intro i le hi _
    have hi0 : i = n := by omega
    subst hi0
    rw [waitAux, dif_pos hn, hsucc]
    simp [failTrace_zero]
  | succ k ih =>
    intro i le hi hfail
    have hilt : i < maxRetries := by omega
    have hsome : (connect i).isSome := hfail i (Nat.le_refl i) (by omega)
    obtain ⟨e, he⟩ := Option.isSome_iff_exists.mp hsome
    rw [waitAux, dif_pos hilt, he]
    have hrec := ih (i + 1) (some e) (by omega) (fun j hj hj2 => hfail j (by omega) hj2)
    simp [hrec, failTrace_succ]

theorem waitAux_failure (connect : Nat → Option String) (maxRetries : Nat)
    (hfail : ∀ j, j < maxRetries → (connect j).isSome) :
    ∀ k i le, i + k = maxRetries →
      waitAux connect maxRetries i le
        = (.failed maxRetries (if k = 0 then le else connect (maxRetries - 1)),
          failTrace i k) := by
  intro k
  induction k with
  | zero =>
    intro i le hi
    have hi0 : i = maxRetries := by omega
    rw [waitAux, dif_neg (by omega)]
    simp [failTrace_zero]
  | succ k ih =>
    intro i le hi
    have hilt : i < maxRetries := by omega
    have hsome : (connect i).isSome := hfail i hilt
    obtain ⟨e, he⟩ := Option.isSome_iff_exists.mp hsome
    rw [waitAux, dif_pos hilt, he]
    simp only [ih (i + 1) (some e) (by omega), failTrace_succ]
    rcases Nat.eq_zero_or_pos k with hk | hk
    · subst hk
      have hi1 : maxRetries - 1 = i := by omega
      simp [hi1, he]
    · have hkne : ¬ (k = 0) := by omega
      simp [hkne]

/-- Claim C4: for every maxRetries ≥ 1, if Connect first succeeds on the
(n+1)-st attempt with n+1 ≤ maxRetries, WaitForConnection returns success
after exactly n+1 Connect attempts, with the fixed 10-second delay between
consecutive attempts; if all maxRetries attempts fail, it returns the
failure outcome carrying maxRetries and the last attempt's error, after
exactly maxRetries attempts. -/
theorem waitForConnection_retry_contract (connect : Nat → Option String)
    (maxRetries : Nat) :
    (∀ n, n < maxRetries → (∀ j, j < n → (connect j).isSome) → connect n = none →
      waitForConnection connect maxRetries = (.ok, failTrace 0 n ++ [WEv.attempt n])
        ∧ attemptCount (waitForConnection connect maxRetries).2 = n + 1)
    ∧ (1 ≤ maxRetries → (∀ j, j < maxRetries → (connect j).isSome) →
      waitForConnection connect maxRetries
          = (.failed maxRetries (connect (maxRetries - 1)), failTrace 0 maxRetries)
        ∧ attemptCount (waitForConnection connect maxRetries).2 = maxRetries) := by
  constructor
  · intro n hn hfail hsucc
    have h := waitAux_success connect maxRetries n hn hsucc n 0 none (by omega)
      (fun j _hj hj2 => hfail j hj2)
    rw [← waitForConnection_def] at h
    refine ⟨h, ?_⟩
    rw [h]
    have hcnt := attemptCount_failTrace 0 n
    simp [attemptCount, List.countP_append] at hcnt ⊢
    omega
  · intro h1 hfail
    have h := waitAux_failure connect maxRetries hfail maxRetries 0 none (by omega)
    rw [if_neg (by omega)] at h
    rw [← waitForConnection_def] at h
    refine ⟨h, ?_⟩
    rw [h]
    exact attemptCount_failTrace 0 maxRetries

/-- A connect oracle that succeeds only on the third attempt. -/
def connThird : Nat → Option String :=
  fun i => if i = 2 then none else some "connection refused"

/-- A connect oracle that always fails. -/
def connNever : Nat → Option String :=
  fun _ => some "connection refused"

/-- Witness for C4: with success on the third of five allowed attempts the
loop stops after exactly three attempts; with every attempt failing and
three allowed attempts it fails after exactly three, wrapping the last
error. -/
theorem waitForConnection_retry_contract_witness :
    (waitForConnection connThird 5 = (.ok, failTrace 0 2 ++ [WEv.attempt 2])
      ∧ attemptCount (waitForConnection connThird 5).2 = 3)
    ∧ (waitForConnection connNever 3
        = (.failed 3 (some "connection refused"), failTrace 0 3)
      ∧ attemptCount (waitForConnection connNever 3).2 = 3) :=
  ⟨(waitForConnection_retry_contract connThird 5).1 2 (by omega)
      (by decide) (by decide),
   (waitForConnection_retry_contract connNever 3).2 (by omega) (by decide)⟩

end SSHClient

namespace Prep

/-! ## PrepareInstance (internal/builder/ssh_builder.go)

PrepareInstance(ctx, skipUpdate):
 - unless skipUpdate: stream "sudo dnf clean all && sudo dnf update -y
   --allowerasing" (failure fatal); then run the restart-required query
   "dnf needs-restarting -r; echo dollar-question".  A query error is only
   warned about and the reboot branch is skipped.  Otherwise the reboot
   branch is taken exactly when the query output contains the substring
   "1" (a one-character pattern, hence character containment); it runs
   "sudo reboot" (an error here is only warned about), sleeps 30 seconds,
   re-runs the instance-running wait (failure fatal), and re-runs
   WaitForConnection with 30 retries (failure fatal).
 - then installs the container runtime, the AWS CLI and the build tools,
   each failure fatal, in that order. -/

/-- The character representing the digit one (code 49). -/
def oneC : Char := Char.ofNat 49

/-- strings.Contains(needsReboot, "1") for the single-character pattern. -/
def outputReportsRestart (out : List Char) : Bool := out.contains oneC

structure Env where
  skipUpdate : Bool
  updateOk : Bool
  restartCheck : Option (List Char)
  rebootCmdOk : Bool
  waitReadyIP : Option String
  reconnectOk : Bool
  containerOk : Bool
  awsCliOk : Bool
  toolsOk : Bool
  deriving DecidableEq, Repr

inductive Ev
  | updatePackages
  | checkRestart
  | warnCheckFailed
  | rebootCmd
  | warnRebootCmdFailed
  | sleep30
  | waitInstanceRunning
  | waitSSH (maxRetries : Nat)
  | installContainer
  | installAwsCli
  | installTools
  deriving DecidableEq, Repr

inductive Err
  | updateFailed
  | waitAfterReboot
  | reconnectFailed
  | containerFailed
  | awsCliFailed
  | toolsFailed
  deriving DecidableEq, Repr

/-- The tail of PrepareInstance: container runtime, AWS CLI, build tools. -/
def installPhase (e : Env) (pre : List Ev) : Except Err Unit × List Ev :=
  let t1 := pre ++ [Ev.installContainer]
  if !e.containerOk then (.error .containerFailed, t1)
  else
    let t2 := t1 ++ [Ev.installAwsCli]
    if !e.awsCliOk then (.error .awsCliFailed, t2)
    else
      let t3 := t2 ++ [Ev.installTools]
      if !e.toolsOk then (.error .toolsFailed, t3)
      else (.ok (), t3)

/-- Embedding of SSHBuilder.PrepareInstance. -/
def prepareInstance (e : Env) : Except Err Unit × List Ev :=
  if e.skipUpdate then installPhase e []
  else
    let t1 := [Ev.updatePackages]
    if !e.updateOk then (.error .updateFailed, t1)
    else
      let t2 := t1 ++ [Ev.checkRestart]
      match e.restartCheck with
      | none => installPhase e (t2 ++ [Ev.warnCheckFailed])
      | some out =>
        if outputReportsRestart out then
          let t3 := t2 ++ [Ev.rebootCmd]
            ++ (if e.rebootCmdOk then [] else [Ev.warnRebootCmdFailed])
          let t4 := t3 ++ [Ev.sleep30, Ev.waitInstanceRunning]
          match e.waitReadyIP with
          | none => (.error .waitAfterReboot, t4)
          | some _ =>
            let t5 := t4 ++ [Ev.waitSSH 30]
            if !e.reconnectOk then (.error .reconnectFailed, t5)
            else installPhase e t5
        else installPhase e t2

/-- Claim C5: with the package update not skipped and succeeding and the
restart-required query returning output, the reboot branch is taken if and
only if that output affirmatively reports a required restart; in that case
the restart command is issued (its own outcome only possibly adding a
warning, never altering the flow), followed by a fresh instance-running
wait and a bounded (30-retry) SSH reconnection, before the container
runtime is installed; otherwise the restart, wait and reconnection steps
are absent and installation follows the check directly. -/
theorem prepareInstance_reboot_branch (e : Env) (out : List Char) (ip : String)
    (hs : e.skipUpdate = false) (hu : e.updateOk = true)
    (hc : e.restartCheck = some out)
    (hw : e.waitReadyIP = some ip) (hr : e.reconnectOk = true)
    (h1 : e.containerOk = true) (h2 : e.awsCliOk = true) (h3 : e.toolsOk = true) :
    (outputReportsRestart out = true →
      prepareInstance e
        = (.ok (), [Ev.updatePackages, Ev.checkRestart, Ev.rebootCmd]
            ++ (if e.rebootCmdOk then [] else [Ev.warnRebootCmdFailed])
            ++ [Ev.sleep30, Ev.waitInstanceRunning, Ev.waitSSH 30,
              Ev.installContainer, Ev.installAwsCli, Ev.installTools]))
    ∧ (outputReportsRestart out = false →
      prepareInstance e
        = (.ok (), [Ev.updatePackages, Ev.checkRestart,
            Ev.installContainer, Ev.installAwsCli, Ev.installTools])) := by
  constructor
  · intro hneeds
    cases hb : e.rebootCmdOk <;>
      simp [prepareInstance, installPhase, hs, hu, hc, hw, hr, h1, h2, h3, hneeds, hb]
  · intro hneeds
    simp [prepareInstance, installPhase, hs, hu, hc, h1, h2, h3, hneeds]

/-- Environment for the reboot branch: query output reports a restart. -/
def envReboot : Env :=
  ⟨false, true, some "Reboot is required; 1".toList, true, some "10.0.0.5", true,
    true, true, true⟩

/-- Environment for the direct branch: query output reports no restart. -/
def envNoReboot : Env :=
  ⟨false, true, some "Reboot should not be necessary; 0".toList, true,
    some "10.0.0.5", true, true, true, true⟩

/-- Witness for C5 at the two concrete environments. -/
theorem prepareInstance_reboot_branch_witness :
    prepareInstance envReboot
        = (.ok (), [Ev.updatePackages, Ev.checkRestart, Ev.rebootCmd,
            Ev.sleep30, Ev.waitInstanceRunning, Ev.waitSSH 30,
            Ev.installContainer, Ev.installAwsCli, Ev.installTools])
      ∧ prepareInstance envNoReboot
        = (.ok (), [Ev.updatePackages, Ev.checkRestart,
            Ev.installContainer, Ev.installAwsCli, Ev.installTools]) := by
  constructor
  · have h := (prepareInstance_reboot_branch envReboot
      "Reboot is required; 1".toList "10.0.0.5" rfl rfl rfl rfl rfl rfl rfl rfl).1
      (by decide)
    simpa using h
  · exact (prepareInstance_reboot_branch envNoReboot
      "Reboot should not be necessary; 0".toList "10.0.0.5"
      rfl rfl rfl rfl rfl rfl rfl rfl).2 (by decide)

/-- Claim C6: when the restart-required query itself fails, PrepareInstance
emits a warning, takes the no-reboot path (no restart command, no
reconnection) and proceeds to the container runtime installation and the
rest of the workflow instead of aborting. -/
theorem prepareInstance_check_error_advisory (e : Env)
    (hs : e.skipUpdate = false) (hu : e.updateOk = true)
    (hc : e.restartCheck = none)
    (h1 : e.containerOk = true) (h2 : e.awsCliOk = true) (h3 : e.toolsOk = true) :
    prepareInstance e
      = (.ok (), [Ev.updatePackages, Ev.checkRestart, Ev.warnCheckFailed,
          Ev.installContainer, Ev.installAwsCli, Ev.installTools]) := by
  simp [prepareInstance, installPhase, hs, hu, hc, h1, h2, h3]

/-- Witness for C6 at a concrete environment. -/
theorem prepareInstance_check_error_advisory_witness :
    prepareInstance ⟨false, true, none, true, some "10.0.0.5", true, true, true, true⟩
      = (.ok (), [Ev.updatePackages, Ev.checkRestart, Ev.warnCheckFailed,
          Ev.installContainer, Ev.installAwsCli, Ev.installTools]) :=
  prepareInstance_check_error_advisory
    ⟨false, true, none, true, some "10.0.0.5", true, true, true, true⟩
    rfl rfl rfl rfl rfl rfl

end Prep

namespace Push

/-! ## PushToECR (internal/docker/builder.go)

PushToECR(ctx, config, ecrRepository):
 1. loginToECR: split the repository URL on dots (fewer than 4 parts is an
    immediate format error, before any command); run the login command;
    the command output must contain "Login Succeeded";
 2. tag the image for ECR under the main name repo:tag, then under the
    architecture-qualified name repo:tag-arch (each failure fatal);
 3. push the main name, then the architecture-qualified name.  Each push
    failure is returned immediately with its own distinct message;
    nothing is retried and nothing already pushed is removed. -/

structure Env where
  loginOut : Option (List Char)
  tagMainOk : Bool
  tagArchOk : Bool
  pushMainOk : Bool
  pushArchOk : Bool
  deriving DecidableEq, Repr

inductive Ev
  | loginCmd
  | tagCmd (src dst : String)
  | pushCmd (image : String)
  deriving DecidableEq, Repr

inductive Err
  | invalidRepoFormat
  | loginCmdFailed
  | loginNotSucceeded
  | tagMainFailed
  | tagArchFailed
  | pushMainFailed
  | pushArchFailed
  deriving DecidableEq, Repr

/-- The error texts from the source (before the wrapped cause). -/
def errText : Err → String
  | .invalidRepoFormat => "invalid ECR repository format"
  | .loginCmdFailed => "ECR login command failed"
  | .loginNotSucceeded => "ECR login did not succeed"
  | .tagMainFailed => "tagging for ECR failed"
  | .tagArchFailed => "tagging arch-specific image for ECR failed"
  | .pushMainFailed => "pushing main image failed"
  | .pushArchFailed => "pushing arch-specific image failed"

/-- The substring required in the login output. -/
def loginMark : List Char := "Login Succeeded".toList

/-- The dot character (code 46). -/
def dotC : Char := Char.ofNat 46

/-- strings.Split on a one-character separator: the pieces between
occurrences of the separator (an empty input gives one empty piece). -/
def splitOnC (sep : Char) : List Char → List (List Char)
  | [] => [[]]
  | c :: cs =>
    match splitOnC sep cs with
    | [] => [[c]]
    | h :: t => if c = sep then [] :: h :: t else (c :: h) :: t

/-- Decidable substring containment, for strings.Contains. -/
def containsSeq (pat s : List Char) : Bool := decide (pat <:+: s)

/-- The primary ECR tag repo:tag. -/
def ecrImageName (repo tag : String) : String := repo ++ ":" ++ tag

/-- The architecture-qualified ECR tag repo:tag-arch. -/
def archECRImageName (repo tag arch : String) : String :=
  repo ++ ":" ++ tag ++ "-" ++ arch

/-- Embedding of DockerBuilder.PushToECR. -/
def pushToECR (e : Env) (imageName imageTag arch repo : String) :
    Except Err Unit × List Ev :=
  if (splitOnC dotC repo.toList).length < 4 then (.error .invalidRepoFormat, [])
  else
    match e.loginOut with
    | none => (.error .loginCmdFailed, [Ev.loginCmd])
    | some out =>
      if !containsSeq loginMark out then (.error .loginNotSucceeded, [Ev.loginCmd])
      else
        let mainImg := ecrImageName repo imageTag
        let archImg := archECRImageName repo imageTag arch
        let t1 := [Ev.loginCmd,
          Ev.tagCmd (imageName ++ ":" ++ imageTag) mainImg]
        if !e.tagMainOk then (.error .tagMainFailed, t1)
        else
          let t2 := t1 ++ [Ev.tagCmd (imageName ++ ":" ++ imageTag ++ "-" ++ arch) archImg]
          if !e.tagArchOk then (.error .tagArchFailed, t2)
          else
            let t3 := t2 ++ [Ev.pushCmd mainImg]
            if !e.pushMainOk then (.error .pushMainFailed, t3)
            else
              let t4 := t3 ++ [Ev.pushCmd archImg]
              if !e.pushArchOk then (.error .pushArchFailed, t4)
              else (.ok (), t4)

/-- Claim C7: the two tag pushes are independent.  When the main push
succeeds and the architecture-qualified push fails, the run ends with the
error designating the architecture-qualified push (its message differs
from the main-push message), the main image was pushed exactly once (no
retry), and no action at all follows the failing push (no rollback).  When
the main push fails, the error designates the main push and the
architecture-qualified image is never pushed. -/
theorem pushToECR_independent_pushes (e : Env) (imageName imageTag arch repo : String)
    (hrepo : ¬ (splitOnC dotC repo.toList).length < 4)
    (hout : ∀ out, e.loginOut = some out → containsSeq loginMark out = true)
    (hlog : e.loginOut.isSome)
    (ht1 : e.tagMainOk = true) (ht2 : e.tagArchOk = true) :
    (e.pushMainOk = true → e.pushArchOk = false →
      pushToECR e imageName imageTag arch repo
          = (.error .pushArchFailed,
            [Ev.loginCmd,
              Ev.tagCmd (imageName ++ ":" ++ imageTag) (ecrImageName repo imageTag),
              Ev.tagCmd (imageName ++ ":" ++ imageTag ++ "-" ++ arch)
                (archECRImageName repo imageTag arch),
              Ev.pushCmd (ecrImageName repo imageTag),
              Ev.pushCmd (archECRImageName repo imageTag arch)])
        ∧ errText .pushArchFailed ≠ errText .pushMainFailed)
    ∧ (e.pushMainOk = false →
      pushToECR e imageName imageTag arch repo
        = (.error .pushMainFailed,
          [Ev.loginCmd,
            Ev.tagCmd (imageName ++ ":" ++ imageTag) (ecrImageName repo imageTag),
            Ev.tagCmd (imageName ++ ":" ++ imageTag ++ "-" ++ arch)
              (archECRImageName repo imageTag arch),
            Ev.pushCmd (ecrImageName repo imageTag)])) := by
  obtain ⟨out, hsome⟩ := Option.isSome_iff_exists.mp hlog
  have hmark := hout out hsome
  have hrepo2 : ¬ (splitOnC dotC repo.data).length < 4 := by
    simpa [String.toList] using hrepo
  constructor
  · intro hp1 hp2
    refine ⟨?_, by decide⟩
    simp [pushToECR, hrepo, hrepo2, hsome, hmark, ht1, ht2, hp1, hp2]
  · intro hp1
    simp [pushToECR, hrepo, hrepo2, hsome, hmark, ht1, ht2, hp1]

/-- Witness environment: login and tagging succeed; main push succeeds and
the architecture push fails, or the main push fails. -/
def envArchPushFails : Env := ⟨some "Login Succeeded".toList, true, true, true, false⟩

def envMainPushFails : Env := ⟨some "Login Succeeded".toList, true, true, false, true⟩

def wRepo : String := "123456789012.dkr.ecr.us-west-2.amazonaws.com/geoschem"

/-- Witness for C7 at concrete inputs. -/
theorem pushToECR_independent_pushes_witness :
    pushToECR envArchPushFails "geoschem-gcc-x86_64" "test" "x86_64" wRepo
        = (.error .pushArchFailed,
          [Ev.loginCmd,
            Ev.tagCmd "geoschem-gcc-x86_64:test" (ecrImageName wRepo "test"),
            Ev.tagCmd "geoschem-gcc-x86_64:test-x86_64"
              (archECRImageName wRepo "test" "x86_64"),
            Ev.pushCmd (ecrImageName wRepo "test"),
            Ev.pushCmd (archECRImageName wRepo "test" "x86_64")])
      ∧ pushToECR envMainPushFails "geoschem-gcc-x86_64" "test" "x86_64" wRepo
        = (.error .pushMainFailed,
          [Ev.loginCmd,
            Ev.tagCmd "geoschem-gcc-x86_64:test" (ecrImageName wRepo "test"),
            Ev.tagCmd "geoschem-gcc-x86_64:test-x86_64"
              (archECRImageName wRepo "test" "x86_64"),
            Ev.pushCmd (ecrImageName wRepo "test")]) := by
  constructor
  · have h := (pushToECR_independent_pushes envArchPushFails
      "geoschem-gcc-x86_64" "test" "x86_64" wRepo (by decide)
      (fun out hout => by
        simp only [envArchPushFails] at hout
        cases hout
        decide)
      rfl rfl rfl).1 rfl rfl
    exact h.1
  · exact (pushToECR_independent_pushes envMainPushFails
      "geoschem-gcc-x86_64" "test" "x86_64" wRepo (by decide)
      (fun out hout => by
        simp only [envMainPushFails] at hout
        cases hout
        decide)
      rfl rfl rfl).2 rfl

end Push

namespace Exec

/-! ## ExecuteCommand and ExecuteCommandStream (internal/ssh client)

Both run session.Run in a goroutine and select between the caller context
being cancelled and the run finishing; the outcome of that race is an
input of the model.  On the cancellation branch the code signals SIGKILL
to the remote process and returns ctx.Err(); ExecuteCommand returns the
empty string (not the partially captured output, which is only returned on
the completion branch), ExecuteCommandStream returns only the error. -/

/-- Which side of the select wins: the context is cancelled while the
command is in flight, or session.Run returns (with its error, if any). -/
inductive Race
  | cancelled
  | completed (runErr : Option String)
  deriving DecidableEq, Repr

structure Env where
  connected : Bool
  sessionOk : Bool
  race : Race
  captured : List Char
  deriving DecidableEq, Repr

inductive Ev
  | newSession
  | signalKill
  deriving DecidableEq, Repr

inductive CmdErr
  | notConnected
  | sessionFailed
  | ctxCancelled
  | commandFailed (msg : String)
  deriving DecidableEq, Repr

/-- Embedding of Client.ExecuteCommand: result is (combined output, error). -/
def executeCommand (e : Env) : (List Char × Option CmdErr) × List Ev :=
  if !e.connected then (([], some .notConnected), [])
  else if !e.sessionOk then (([], some .sessionFailed), [Ev.newSession])
  else
    match e.race with
    | .cancelled => (([], some .ctxCancelled), [Ev.newSession, Ev.signalKill])
    | .completed none => ((e.captured, none), [Ev.newSession])
    | .completed (some m) => ((e.captured, some (.commandFailed m)), [Ev.newSession])

/-- Embedding of Client.ExecuteCommandStream: output goes to the sinks, so
the result is only the error. -/
def executeCommandStream (e : Env) : Option CmdErr × List Ev :=
  if !e.connected then (some .notConnected, [])
  else if !e.sessionOk then (some .sessionFailed, [Ev.newSession])
  else
    match e.race with
    | .cancelled => (some .ctxCancelled, [Ev.newSession, Ev.signalKill])
    | .completed none => (none, [Ev.newSession])
    | .completed (some m) => (some (.commandFailed m), [Ev.newSession])

/-- Claim C8: for every command run through either entry point, when the
caller context is cancelled while the command is in flight, the remote
process is sent the kill signal and the call returns the cancellation
error; ExecuteCommand returns empty output together with that error —
never the partially captured output — whatever the capture buffer holds. -/
theorem execute_cancellation (e : Env)
    (hc : e.connected = true) (hs : e.sessionOk = true)
    (hr : e.race = .cancelled) :
    executeCommand e = (([], some .ctxCancelled), [Ev.newSession, Ev.signalKill])
      ∧ executeCommandStream e = (some .ctxCancelled, [Ev.newSession, Ev.signalKill]) := by
  constructor <;> simp [executeCommand, executeCommandStream, hc, hs, hr]

/-- Witness for C8: a cancelled run whose capture buffer is nonempty still
returns empty output, the cancellation error and the kill signal. -/
theorem execute_cancellation_witness :
    executeCommand ⟨true, true, .cancelled, "partly captured build output".toList⟩
        = (([], some .ctxCancelled), [Ev.newSession, Ev.signalKill])
      ∧ executeCommandStream ⟨true, true, .cancelled, "partly captured build output".toList⟩
        = (some .ctxCancelled, [Ev.newSession, Ev.signalKill]) :=
  execute_cancellation ⟨true, true, .cancelled, "partly captured build output".toList⟩
    rfl rfl rfl

end Exec

namespace BuildSSH

/-! ## BuildWithSSH (internal/builder/ssh_builder.go)

BuildWithSSH(ctx, config, arch) returns (instanceID, error):
 1. GetOrCreateKeyPair — failure returns ("", err);
 2. launchBuildInstance — failure returns ("", err);
 3. waitForInstanceReady — failure returns (instanceID, err);
 4. ssh.NewClient — failure returns (instanceID, err);
 5. WaitForConnection(ip, 30) — failure returns (instanceID, err);
 6. TestConnection — failure returns (instanceID, err);
 7. success returns (instanceID, nil). -/

structure Env where
  keyPairOk : Bool
  launched : Option String
  publicIP : Option String
  clientOk : Bool
  connOk : Bool
  testOk : Bool
  deriving DecidableEq, Repr

inductive Err
  | keyPairSetup
  | launchFailed
  | waitInstance
  | createClient
  | sshConnect
  | sshTest
  deriving DecidableEq, Repr

/-- Embedding of SSHBuilder.BuildWithSSH. -/
def buildWithSSH (e : Env) : String × Option Err :=
  if !e.keyPairOk then ("", some .keyPairSetup)
  else
    match e.launched with
    | none => ("", some .launchFailed)
    | some iid =>
      match e.publicIP with
      | none => (iid, some .waitInstance)
      | some _ =>
        if !e.clientOk then (iid, some .createClient)
        else if !e.connOk then (iid, some .sshConnect)
        else if !e.testOk then (iid, some .sshTest)
        else (iid, none)

/-- Claim C10: whenever the launch call has returned an instance
identifier, BuildWithSSH returns that identifier whatever happens
afterwards — on success and on every later failure — so the caller always
holds the node identifier needed for termination; only the key-pair setup
failure and the launch failure itself return the empty identifier. -/
theorem buildWithSSH_returns_id (e : Env) (iid : String) :
    (e.keyPairOk = true → e.launched = some iid → (buildWithSSH e).1 = iid)
    ∧ (e.keyPairOk = false → buildWithSSH e = ("", some .keyPairSetup))
    ∧ (e.keyPairOk = true → e.launched = none →
      buildWithSSH e = ("", some .launchFailed)) := by
  refine ⟨fun hk hl => ?_, fun hk => ?_, fun hk hl => ?_⟩
  · rcases hip : e.publicIP with _ | ip <;>
      cases hcl : e.clientOk <;> cases hco : e.connOk <;> cases hte : e.testOk <;>
      simp [buildWithSSH, hk, hl, hip, hcl, hco, hte]
  · simp [buildWithSSH, hk]
  · simp [buildWithSSH, hk, hl]

/-- Witness for C10: a run failing at the SSH-connection wait still returns
the launched identifier, and pre-launch failures return the empty one. -/
theorem buildWithSSH_returns_id_witness :
    (buildWithSSH ⟨true, some "i-0123456789abcdef0", some "10.0.0.5", true, false, true⟩).1
        = "i-0123456789abcdef0"
      ∧ buildWithSSH ⟨false, some "i-0123456789abcdef0", some "10.0.0.5", true, true, true⟩
        = ("", some .keyPairSetup)
      ∧ buildWithSSH ⟨true, none, some "10.0.0.5", true, true, true⟩
        = ("", some .launchFailed) :=
  ⟨(buildWithSSH_returns_id
      ⟨true, some "i-0123456789abcdef0", some "10.0.0.5", true, false, true⟩
      "i-0123456789abcdef0").1 rfl rfl,
   (buildWithSSH_returns_id
      ⟨false, some "i-0123456789abcdef0", some "10.0.0.5", true, true, true⟩
      "i-0123456789abcdef0").2.1 rfl,
   (buildWithSSH_returns_id ⟨true, none, some "10.0.0.5", true, true, true⟩
      "i-unused").2.2 rfl rfl⟩

end BuildSSH

namespace Orchestrate

/-! ## The two orchestrated runs

Builder.BuildSingle (internal/builder/builder.go) launches an instance and
immediately registers `defer terminateInstance`, so termination runs on
every path after a successful launch; a termination failure is only warned
about.  (executeBuild in the source is a placeholder that always returns
nil after a sleep, so the only post-launch failure point is the
instance-running wait.)

cmd/build-geoschem/main.go drives BuildWithSSH → PrepareInstance →
TestDockerConnection → BuildContainer → (optional) PushToECR →
CleanupImages and then calls its cleanup closure (which terminates the
instance unless -keep-instance was set).  Every failure branch, however,
exits through log.Fatalf, which calls os.Exit: the cleanup closure — and
any deferred call — does NOT run on those branches.  Cleanup runs only at
the end of a fully successful run or from the interrupt-signal handler. -/

structure SingleEnv where
  launched : Option String
  waitOk : Bool
  terminateOk : Bool
  deriving DecidableEq, Repr

inductive SEv
  | launchInstance
  | waitInstance
  | execBuild
  | terminateRequest (iid : String)
  | warnTerminateFailed (iid : String)
  deriving DecidableEq, Repr

inductive SErr
  | launchFailed
  | waitFailed
  deriving DecidableEq, Repr

/-- The actions of the deferred terminateInstance call: one
TerminateInstances request, plus a warning if it fails. -/
def deferredTerminate (e : SingleEnv) (iid : String) : List SEv :=
  [SEv.terminateRequest iid] ++ (if e.terminateOk then [] else [SEv.warnTerminateFailed iid])

/-- Embedding of Builder.BuildSingle; the deferred termination appears at
the end of every post-launch path. -/
def buildSingle (e : SingleEnv) : Option SErr × List SEv :=
  match e.launched with
  | none => (some .launchFailed, [SEv.launchInstance])
  | some iid =>
    if !e.waitOk then
      (some .waitFailed, [SEv.launchInstance, SEv.waitInstance] ++ deferredTerminate e iid)
    else
      (none, [SEv.launchInstance, SEv.waitInstance, SEv.execBuild] ++ deferredTerminate e iid)

/-- Number of termination requests in a BuildSingle trace. -/
def sTerminateCount (t : List SEv) : Nat :=
  t.countP fun ev => match ev with | .terminateRequest _ => true | _ => false

/-- In BuildSingle the deferred termination fires exactly once on every
path after a successful launch, failure or success alike. -/
theorem buildSingle_terminates_once (e : SingleEnv) (iid : String)
    (hl : e.launched = some iid) :
    sTerminateCount (buildSingle e).2 = 1 := by
  cases hw : e.waitOk <;> cases ht : e.terminateOk <;>
    simp [buildSingle, deferredTerminate, sTerminateCount, hl, hw, ht]

/-- Witness for the BuildSingle half: a concrete failed wait still yields
exactly one termination request. -/
theorem buildSingle_terminates_once_witness :
    sTerminateCount (buildSingle ⟨some "i-0aa11bb22cc33dd44", false, true⟩).2 = 1 :=
  buildSingle_terminates_once ⟨some "i-0aa11bb22cc33dd44", false, true⟩
    "i-0aa11bb22cc33dd44" rfl

structure MainEnv where
  bwsId : String
  bwsOk : Bool
  prepareOk : Bool
  dockerTestOk : Bool
  skipBuild : Bool
  buildOk : Bool
  ecrSet : Bool
  skipPush : Bool
  pushOk : Bool
  skipCleanup : Bool
  deriving DecidableEq, Repr

inductive MEv
  | buildWithSSHStep
  | prepareStep
  | dockerTestStep
  | buildStep
  | pushStep
  | cleanupImagesStep
  | terminateRequest (iid : String)
  deriving DecidableEq, Repr

inductive MOut
  | fatalExit
  | completed
  deriving DecidableEq, Repr

/-- The cleanup closure of main: terminate the instance if one was
recorded and -keep-instance was not set.  It is reached only on the
success path (and from the interrupt handler, not modelled here). -/
def finishMain (e : MainEnv) (t : List MEv) : MOut × List MEv :=
  if e.skipCleanup then (.completed, t)
  else if e.bwsId = "" then (.completed, t)
  else (.completed, t ++ [MEv.terminateRequest e.bwsId])

/-- Embedding of cmd/build-geoschem main, from the BuildWithSSH call on.
Every failure branch is log.Fatalf, i.e. os.Exit: nothing runs after it. -/
def mainRun (e : MainEnv) : MOut × List MEv :=
  let t0 := [MEv.buildWithSSHStep]
  if !e.bwsOk then (.fatalExit, t0)
  else
    let t1 := t0 ++ [MEv.prepareStep]
    if !e.prepareOk then (.fatalExit, t1)
    else
      let t2 := t1 ++ [MEv.dockerTestStep]
      if !e.dockerTestOk then (.fatalExit, t2)
      else if e.skipBuild then finishMain e t2
      else
        let t3 := t2 ++ [MEv.buildStep]
        if !e.buildOk then (.fatalExit, t3)
        else if e.ecrSet && !e.skipPush then
          let t4 := t3 ++ [MEv.pushStep]
          if !e.pushOk then (.fatalExit, t4)
          else finishMain e (t4 ++ [MEv.cleanupImagesStep])
        else finishMain e (t3 ++ [MEv.cleanupImagesStep])

/-- Number of termination requests in a main trace. -/
def mTerminateCount (t : List MEv) : Nat :=
  t.countP fun ev => match ev with | .terminateRequest _ => true | _ => false

/-- The failing input for claim C1: BuildWithSSH succeeds (the node was
launched, reached running and is reachable; the identifier is recorded)
and the next step, PrepareInstance, fails; -keep-instance is not set. -/
def c1FailEnv : MainEnv :=
  ⟨"i-0fa11ed0fa11ed00", true, false, true, false, true, false, false, true, false⟩

/-- Claim C1, evaluated on the failing input: the run ends by log.Fatalf
after the failed provisioning step and the trace contains NO termination
request — the launched node is leaked, contradicting the claim that
exactly one termination request is issued on every post-launch failure.
(BuildSingle, by contrast, satisfies the claim via its deferred call; see
buildSingle_terminates_once.) -/
theorem mainRun_leaks_on_prepare_failure :
    mainRun c1FailEnv = (.fatalExit, [MEv.buildWithSSHStep, MEv.prepareStep])
      ∧ mTerminateCount (mainRun c1FailEnv).2 = 0
      ∧ mainRun ⟨"i-0fa11ed0fa11ed00", true, true, true, true, true, false, false,
          true, false⟩
        = (.completed, [MEv.buildWithSSHStep, MEv.prepareStep, MEv.dockerTestStep,
            MEv.terminateRequest "i-0fa11ed0fa11ed00"]) := by
  refine ⟨rfl, rfl, ?_⟩
  simp [mainRun, finishMain, c1FailEnv]

end Orchestrate

end GeoschemAWS
